import Mathlib

/-!
Verification of the SwiftQL C interoperability shim
(`Sources/CSwiftQL/include/sqlite3_extensions.h`) and of the log-bridge
core described by the repository specification.

The shim is embedded shallowly: a callback value is a function-pointer
address (a `Nat`, with `0` standing for the C `NULL` pointer), and a call
into the engine is recorded as a `NativeCall` value, so that
`registerErrorLogCallback` is a pure function returning its trace of
engine calls.  The C type signature of `errorLogCallback` is embedded as
data (`CFunSig`).

The specification's `EngineLogBridge` / `LogEventChannel` core has no
implementation under the repository sources (only the shim exists), so
those operations are modelled from the specification text; each such
definition carries a doc comment starting `Modelled from the spec:`.
-/

/-- The engine's OK sentinel (`SQLITE_OK` in `sqlite3.h`). -/
def SQLITE_OK : Int := 0

/-- The logging configuration key (`SQLITE_CONFIG_LOG` in `sqlite3.h`). -/
def SQLITE_CONFIG_LOG : Int := 16

/-- One variadic argument passed to `sqlite3_config`: either a function
pointer (by address, `0` standing for `NULL`) or an integer. -/
inductive ConfigArg where
  | funcPtr (addr : Nat)
  | intArg (n : Int)
deriving DecidableEq

/-- A call into the engine's C API, as recorded by the shallow embedding.
The shim makes only `sqlite3_config` calls: a config key followed by the
variadic arguments. -/
inductive NativeCall where
  | sqlite3_config (key : Int) (varargs : List ConfigArg)
deriving DecidableEq

/-- Total number of arguments of a recorded engine call (the config key
plus the variadic arguments). -/
def NativeCall.totalArgCount : NativeCall → Nat
  | .sqlite3_config _ varargs => 1 + varargs.length

/-- Shallow embedding of the shim
`static inline void registerErrorLogCallback(errorLogCallback callback) {
sqlite3_config(SQLITE_CONFIG_LOG, callback, 0); }`.
The callback is a function-pointer address (`0` = `NULL`); the result is
the trace of engine calls the body performs. -/
def registerErrorLogCallback (callback : Nat) : List NativeCall :=
  [NativeCall.sqlite3_config SQLITE_CONFIG_LOG
    [ConfigArg.funcPtr callback, ConfigArg.intArg 0]]

/-- C types occurring in the shim's typedef. -/
inductive CType where
  | voidPtr
  | intType
  | constCharPtr
  | voidType
deriving DecidableEq

/-- Whether a C type is a pointer type. -/
def CType.isPointer : CType → Bool
  | .voidPtr => true
  | .constCharPtr => true
  | _ => false

/-- A C function signature: parameter types and return type. -/
structure CFunSig where
  params : List CType
  ret : CType
deriving DecidableEq

/-- Embedding of the shim's typedef
`typedef void(*errorLogCallback)(void *pArg, int iErrCode, const char *zMsg)`. -/
def errorLogCallbackSig : CFunSig :=
  { params := [CType.voidPtr, CType.intType, CType.constCharPtr]
    ret := CType.voidType }

/-- Modelled from the spec: the engine's native ABI for the logging
configuration key expects a callback of shape
`(context: pointer, code: int, message: pointer) -> void`. -/
def matchesEngineLogAbi (sig : CFunSig) : Bool :=
  (match sig.params with
   | [p0, p1, p2] => p0.isPointer && (p1 = CType.intType) && p2.isPointer
   | _ => false) && (sig.ret = CType.voidType)

/-- Modelled from the spec: the bridge's error taxonomy
(`AlreadyRegistered`, `AlreadyUnregistered`, `EngineRejected`,
`HandlerPanic`). -/
inductive BridgeError where
  | AlreadyRegistered
  | AlreadyUnregistered
  | EngineRejected
  | HandlerPanic
deriving DecidableEq

/-- Modelled from the spec: a structured log event, with an engine status
code and an owned copy of the message text. -/
structure LogEvent where
  code : Int
  message : String
deriving DecidableEq

/-- Modelled from the spec: what a host handler invocation does — either
it returns normally or it raises a failure. -/
inductive HandlerOutcome where
  | ok
  | raises
deriving DecidableEq

/-- Modelled from the spec: a host-supplied handler of signature
`(LogEvent) -> ()`, which may raise during invocation. -/
def Handler := LogEvent → HandlerOutcome

/-- Modelled from the spec: a `RegistrationHandle` returned by a
successful `register`, identified by a token. -/
structure RegistrationHandle where
  id : Nat
deriving DecidableEq

/-- Modelled from the spec: the bridge's process-wide state — the handler
storage slot read by the trampoline, the ids of live registration
handles, and a counter for fresh handle ids. -/
structure BridgeState where
  slot : Option Handler
  live : List Nat
  nextId : Nat

/-- Modelled from the spec: the initial bridge state, with no handler
registered. -/
def initState : BridgeState := { slot := none, live := [], nextId := 0 }

/-- Modelled from the spec: `EngineLogBridge.register`.  Fails with
`AlreadyRegistered` if a handle already exists (no engine call is made);
otherwise makes the single engine configuration call, whose status the
engine chooses (`engineStatus`): a non-OK status fails with
`EngineRejected`, and OK installs the handler and returns a fresh handle.
The result is the call's outcome, the new state, and the number of calls
made into the engine. -/
def register (st : BridgeState) (handler : Handler) (engineStatus : Int) :
    Except BridgeError RegistrationHandle × BridgeState × Nat :=
  if st.live = [] then
    if engineStatus = SQLITE_OK then
      (Except.ok ⟨st.nextId⟩,
        { slot := some handler, live := [st.nextId], nextId := st.nextId + 1 },
        1)
    else
      (Except.error BridgeError.EngineRejected, st, 1)
  else
    (Except.error BridgeError.AlreadyRegistered, st, 0)

/-- Modelled from the spec: `EngineLogBridge.unregister`.  A live handle
is consumed: the engine deregistration call is made, and the handler slot
is cleared before the call returns.  A handle that is not live (already
consumed) fails with `AlreadyUnregistered` and performs no engine call. -/
def unregister (st : BridgeState) (handle : RegistrationHandle) :
    Except BridgeError Unit × BridgeState × Nat :=
  if handle.id ∈ st.live then
    (Except.ok (),
      { slot := none, live := st.live.erase handle.id, nextId := st.nextId },
      1)
  else
    (Except.error BridgeError.AlreadyUnregistered, st, 0)

/-- Modelled from the spec: the synchronous copy-out of the engine-owned
message buffer into owned text, character by character. -/
def copyOut : List Char → List Char
  | [] => []
  | c :: cs => c :: copyOut cs

/-- Modelled from the spec: copy-out at the level of message strings. -/
def copyOutStr (s : String) : String := ⟨copyOut s.data⟩

/-- Modelled from the spec: `LogEventChannel.trampolineEntry`.  Copies the
borrowed message, builds the `LogEvent`, looks up the registered handler
in the process-wide slot and invokes it synchronously; with no handler
registered the event is dropped silently.  The return type is a plain
pair — the list of handler invocations (each with the event it received)
and the reports sent to the secondary diagnostic sink — so a handler
failure is caught at this boundary and never propagates to the engine. -/
def trampolineEntry (st : BridgeState) (rawCode : Int) (rawMessage : String) :
    List LogEvent × List BridgeError :=
  let event : LogEvent := { code := rawCode, message := copyOutStr rawMessage }
  match st.slot with
  | none => ([], [])
  | some handler =>
    match handler event with
    | .ok => ([event], [])
    | .raises => ([event], [BridgeError.HandlerPanic])

/-- Modelled from the spec: one host-issued bridge operation, for
reasoning about arbitrary sequences of register/unregister calls.  A
register operation carries the status the engine returns for its
configuration call. -/
inductive BridgeOp where
  | doRegister (handler : Handler) (engineStatus : Int)
  | doUnregister (handle : RegistrationHandle)

/-- State transition of one bridge operation. -/
def stepOp (st : BridgeState) : BridgeOp → BridgeState
  | .doRegister h s => (register st h s).2.1
  | .doUnregister hd => (unregister st hd).2.1

/-- Run a sequence of bridge operations from a state. -/
def runOps (st : BridgeState) : List BridgeOp → BridgeState
  | [] => st
  | op :: ops => runOps (stepOp st op) ops

/-- A handler that always returns normally (used in witnesses). -/
def hOk : Handler := fun _ => HandlerOutcome.ok

/-- A handler that always raises (used in witnesses). -/
def hRaises : Handler := fun _ => HandlerOutcome.raises

lemma copyOut_id (l : List Char) : copyOut l = l := by
  induction l with
  | nil => rfl
  | cons c cs ih => simp [copyOut, ih]

lemma copyOutStr_id (s : String) : copyOutStr s = s := by
  cases s with
  | mk data => simp [copyOutStr, copyOut_id]

lemma stepOp_live_le (st : BridgeState) (hinv : st.live.length ≤ 1)
    (op : BridgeOp) : (stepOp st op).live.length ≤ 1 := by
  cases op with
  | doRegister h s =>
    simp only [stepOp, register]
    by_cases h1 : st.live = []
    · by_cases h2 : s = SQLITE_OK <;> simp [h1, h2]
    · simpa [h1] using hinv
  | doUnregister hd =>
    simp only [stepOp, unregister]
    by_cases h1 : hd.id ∈ st.live
    · simp only [h1, if_pos]
      exact le_trans (List.Sublist.length_le (st.live.erase_sublist hd.id)) hinv
    · simpa [h1] using hinv

lemma runOps_live_le (ops : List BridgeOp) (st : BridgeState)
    (hinv : st.live.length ≤ 1) : (runOps st ops).live.length ≤ 1 := by
  induction ops generalizing st with
  | nil => simpa [runOps] using hinv
  | cons op ops ih => exact ih (stepOp st op) (stepOp_live_le st hinv op)

lemma register_ok_shape (st : BridgeState) (h : Handler) (s : Int)
    (hd : RegistrationHandle) (hreg : (register st h s).1 = Except.ok hd) :
    st.live = [] ∧ s = SQLITE_OK ∧ hd = ⟨st.nextId⟩ ∧
    (register st h s).2.1 =
      { slot := some h, live := [st.nextId], nextId := st.nextId + 1 } := by
  by_cases h1 : st.live = []
  · by_cases h2 : s = SQLITE_OK
    · refine ⟨h1, h2, ?_, ?_⟩
      · simpa [register, h1, h2] using hreg.symm
      · simp [register, h1, h2]
    · simp [register, h1, h2] at hreg
  · simp [register, h1] at hreg

/-- Claim C1: `registerErrorLogCallback c` performs exactly one engine call,
`sqlite3_config` with exactly three arguments in the fixed shape
`(SQLITE_CONFIG_LOG, c, 0)`, and nothing else. -/
theorem claim_C1_shim_single_config_call (c : Nat) :
    registerErrorLogCallback c =
      [NativeCall.sqlite3_config SQLITE_CONFIG_LOG
        [ConfigArg.funcPtr c, ConfigArg.intArg 0]] ∧
    (registerErrorLogCallback c).length = 1 ∧
    (registerErrorLogCallback c).map NativeCall.totalArgCount = [3] := by
  refine ⟨rfl, rfl, ?_⟩
  simp [registerErrorLogCallback, NativeCall.totalArgCount]

/-- Claim C9: the callback type accepted by the registration primitive is a
function pointer taking exactly three parameters — a context pointer, an
integer code, a message pointer — returning nothing, matching the
engine's ABI for the logging configuration key. -/
theorem claim_C9_callback_type_shape :
    errorLogCallbackSig.params =
      [CType.voidPtr, CType.intType, CType.constCharPtr] ∧
    errorLogCallbackSig.params.length = 3 ∧
    errorLogCallbackSig.ret = CType.voidType ∧
    matchesEngineLogAbi errorLogCallbackSig = true := by
  decide

/-- Claim C10: the shim performs no validation of its argument: for every
callback value — including the `NULL` function pointer, modelled by
address `0` — it unconditionally forwards the value to the engine
configuration call, with no guard or distinct behavior. -/
theorem claim_C10_no_validation :
    (∀ c : Nat,
      registerErrorLogCallback c =
        [NativeCall.sqlite3_config SQLITE_CONFIG_LOG
          [ConfigArg.funcPtr c, ConfigArg.intArg 0]]) ∧
    registerErrorLogCallback 0 =
      [NativeCall.sqlite3_config SQLITE_CONFIG_LOG
        [ConfigArg.funcPtr 0, ConfigArg.intArg 0]] :=
  ⟨fun _ => rfl, rfl⟩

/-- Claim C2: with no registration in the way, a non-OK engine status for
the configuration call makes `register` fail with `EngineRejected`, and
the OK sentinel makes it succeed. -/
theorem claim_C2_engine_status (st : BridgeState) (h : Handler) (s : Int)
    (hempty : st.live = []) :
    (s ≠ SQLITE_OK →
      (register st h s).1 = Except.error BridgeError.EngineRejected) ∧
    (s = SQLITE_OK →
      (register st h s).1 = Except.ok ⟨st.nextId⟩) := by
  constructor <;> intro h2 <;> simp [register, hempty, h2]

/-- Witness for C2 at the initial state, with engine statuses `1` and `0`. -/
theorem claim_C2_witness :
    (register initState hOk 1).1 = Except.error BridgeError.EngineRejected ∧
    (register initState hOk 0).1 = Except.ok ⟨0⟩ :=
  ⟨(claim_C2_engine_status initState hOk 1 rfl).1 (by decide),
   (claim_C2_engine_status initState hOk 0 rfl).2 rfl⟩

/-- A state with a live registration, used in witnesses. -/
def stLive : BridgeState := { slot := some hOk, live := [0], nextId := 1 }

/-- Claim C3: over every sequence of register and unregister operations
from the initial state, at most one `RegistrationHandle` is live at any
time; and a `register` call made while the live set is nonempty fails
with `AlreadyRegistered` rather than replacing the registration. -/
theorem claim_C3_single_live_handle (ops : List BridgeOp) :
    (runOps initState ops).live.length ≤ 1 ∧
    ∀ (st : BridgeState) (h : Handler) (s : Int), st.live ≠ [] →
      (register st h s).1 = Except.error BridgeError.AlreadyRegistered := by
  refine ⟨runOps_live_le ops initState (by simp [initState]), ?_⟩
  intro st h s hne
  simp [register, hne]

/-- Witness for C3: a double-register sequence, and a rejected second
`register` against a state holding a live handle. -/
theorem claim_C3_witness :
    (runOps initState
      [BridgeOp.doRegister hOk 0, BridgeOp.doRegister hOk 0]).live.length ≤ 1 ∧
    (register stLive hOk 0).1 = Except.error BridgeError.AlreadyRegistered :=
  ⟨(claim_C3_single_live_handle
      [BridgeOp.doRegister hOk 0, BridgeOp.doRegister hOk 0]).1,
   (claim_C3_single_live_handle []).2 stLive hOk 0 (by simp [stLive])⟩

/-- Claim C4: for every handle obtained from a successful `register`, the
first `unregister` on that handle succeeds, and a second `unregister` on
the same handle fails with `AlreadyUnregistered` and performs zero engine
calls. -/
theorem claim_C4_unregister_once (st st1 : BridgeState) (h : Handler)
    (s : Int) (hd : RegistrationHandle)
    (hreg : (register st h s).1 = Except.ok hd)
    (hst1 : st1 = (register st h s).2.1) :
    (unregister st1 hd).1 = Except.ok () ∧
    (unregister (unregister st1 hd).2.1 hd).1 =
      Except.error BridgeError.AlreadyUnregistered ∧
    (unregister (unregister st1 hd).2.1 hd).2.2 = 0 := by
  obtain ⟨h1, h2, hhd, hpost⟩ := register_ok_shape st h s hd hreg
  subst hst1
  rw [hpost, hhd]
  simp [unregister]

/-- Witness for C4: register at the initial state, then unregister the
returned handle twice. -/
theorem claim_C4_witness :
    (unregister (register initState hOk 0).2.1 ⟨0⟩).1 = Except.ok () ∧
    (unregister (unregister (register initState hOk 0).2.1 ⟨0⟩).2.1 ⟨0⟩).1 =
      Except.error BridgeError.AlreadyUnregistered ∧
    (unregister (unregister (register initState hOk 0).2.1 ⟨0⟩).2.1 ⟨0⟩).2.2
      = 0 :=
  claim_C4_unregister_once initState (register initState hOk 0).2.1 hOk 0
    ⟨0⟩ rfl rfl

/-- Claim C5: after a successful `register` with handler `H`, a trampoline
invocation with code `14` and message `"disk I/O error"` invokes `H`
exactly once, with an event carrying code `14` and message
`"disk I/O error"`. -/
theorem claim_C5_event_delivery (st : BridgeState) (H : Handler)
    (hempty : st.live = []) :
    ((register st H SQLITE_OK).2.1).slot = some H ∧
    (trampolineEntry (register st H SQLITE_OK).2.1 14 "disk I/O error").1 =
      [{ code := 14, message := "disk I/O error" }] := by
  have hpost : (register st H SQLITE_OK).2.1 =
      { slot := some H, live := [st.nextId], nextId := st.nextId + 1 } := by
    simp [register, hempty]
  rw [hpost]
  refine ⟨rfl, ?_⟩
  simp only [trampolineEntry, copyOutStr_id]
  cases H { code := 14, message := "disk I/O error" } <;> rfl

/-- Witness for C5 at the initial state with the always-ok handler. -/
theorem claim_C5_witness :
    ((register initState hOk SQLITE_OK).2.1).slot = some hOk ∧
    (trampolineEntry (register initState hOk SQLITE_OK).2.1 14
      "disk I/O error").1 =
      [{ code := 14, message := "disk I/O error" }] :=
  claim_C5_event_delivery initState hOk rfl

/-- A state whose registered handler always raises, used in witnesses. -/
def stRaises : BridgeState := { slot := some hRaises, live := [0], nextId := 1 }

/-- Claim C6: a handler that raises while invoked from the trampoline is
caught at the boundary: the trampoline still returns an ordinary value
(never unwinding into the engine), and the failure is reported only
through the secondary diagnostic sink, as `HandlerPanic`. -/
theorem claim_C6_handler_failure_contained (st : BridgeState) (H : Handler)
    (code : Int) (msg : String)
    (hslot : st.slot = some H)
    (hfails : H { code := code, message := copyOutStr msg } =
      HandlerOutcome.raises) :
    trampolineEntry st code msg =
      ([{ code := code, message := copyOutStr msg }],
       [BridgeError.HandlerPanic]) := by
  simp [trampolineEntry, hslot, hfails]

/-- Witness for C6 with the always-raising handler. -/
theorem claim_C6_witness :
    trampolineEntry stRaises 7 "boom" =
      ([{ code := 7, message := copyOutStr "boom" }],
       [BridgeError.HandlerPanic]) :=
  claim_C6_handler_failure_contained stRaises hRaises 7 "boom" rfl rfl

/-- Claim C7: once `unregister` has returned successfully, every
subsequent trampoline invocation produces zero handler calls and no sink
report — the event is silently dropped. -/
theorem claim_C7_no_delivery_after_unregister (st : BridgeState)
    (hd : RegistrationHandle) (code : Int) (msg : String)
    (hok : (unregister st hd).1 = Except.ok ()) :
    trampolineEntry (unregister st hd).2.1 code msg = ([], []) := by
  by_cases h1 : hd.id ∈ st.live
  · simp [unregister, h1, trampolineEntry]
  · simp [unregister, h1] at hok

/-- A second live-registration state, used in witnesses. -/
def stLive2 : BridgeState := { slot := some hOk, live := [1], nextId := 2 }

/-- Witness for C7: unregister the live handle, then invoke the
trampoline. -/
theorem claim_C7_witness :
    trampolineEntry (unregister stLive2 ⟨1⟩).2.1 3 "late event" = ([], []) :=
  claim_C7_no_delivery_after_unregister stLive2 ⟨1⟩ 3 "late event" rfl

/-- Claim C8: for every raw message string passed to the trampoline, the
copy-out is the identity on the text — the event delivered to the
registered handler carries a message character-for-character equal to the
raw message, with no truncation or corruption. -/
theorem claim_C8_message_roundtrip (st : BridgeState) (H : Handler)
    (code : Int) (raw : String)
    (hslot : st.slot = some H) :
    copyOutStr raw = raw ∧
    (trampolineEntry st code raw).1 = [{ code := code, message := raw }] := by
  refine ⟨copyOutStr_id raw, ?_⟩
  simp only [trampolineEntry, copyOutStr_id, hslot]
  cases H { code := code, message := raw } <;> rfl

/-- A 10,000-character message, longer than any fixed-size buffer. -/
def longMsg : String := ⟨List.replicate 10000 (Char.ofNat 97)⟩

/-- Witness for C8 with the 10,000-character message. -/
theorem claim_C8_witness :
    copyOutStr longMsg = longMsg ∧
    (trampolineEntry stLive 5 longMsg).1 = [{ code := 5, message := longMsg }] :=
  claim_C8_message_roundtrip stLive hOk 5 longMsg rfl
